import Mathlib

/-
Verification development for the table-tennis strategy EV dashboard
(src/app.py). The program is a filter-sort-render pipeline over small
in-memory tables. We embed the data model and the pipeline shallowly:
dataframes become lists of records, dataframe filters become List.filter,
the pandas sort_values call becomes an ascending sort followed by a
reversal (pandas computes an ascending argsort and reverses the index
order when ascending=False; numpy uses a stable insertion sort on the
small arrays involved), Python dict lookups become List.lookup returning
Option (none models a KeyError), and the Streamlit calls st.warning,
st.info, st.pyplot, st.dataframe and st.stop become fields of an explicit
render-output record. File loading (load_csv) is external input: the
embedded pipeline takes the loaded tables as arguments.
-/

/-- Embedding of SERVE_ACTIONS (src/app.py line 30). -/
def SERVE_ACTIONS : List Int := [15, 16, 17, 18]

/-- Embedding of NON_SERVE_ACTIONS = list(range(0, 15)) (src/app.py line 31). -/
def NON_SERVE_ACTIONS : List Int := (List.range 15).map (fun n : Nat => (n : Int))

/-- Embedding of the action_label dict (src/app.py lines 36-44), as an
association list; a Python dict access that would raise KeyError is
modelled by List.lookup returning none. -/
def action_label : List (Int × String) :=
  [(0, "無(Zero)"), (1, "拉球(Drive)"), (2, "反拉(Counter)"), (3, "殺球(Smash)"),
   (4, "擰球(Twist)"), (5, "快帶(Fast drive)"), (6, "推擠(Fast push)"),
   (7, "挑撥(Flip)"), (8, "拱球(Long push)"), (9, "磕球(Fast push)"),
   (10, "搓球(Long push)"), (11, "擺短(Drop shot)"), (12, "削球(Chop)"),
   (13, "擋球(Block)"), (14, "放高球(Lob)"),
   (15, "傳統(Traditional serve)"), (16, "勾手(Hook serve)"),
   (17, "逆旋轉(Reverse serve)"), (18, "下蹲式(Squat serve)")]

/-- Embedding of the spin_label dict (src/app.py lines 46-49). -/
def spin_label : List (Int × String) :=
  [(0, "無(Zero)"), (1, "上旋(Top)"), (2, "下旋(Back)"),
   (3, "不旋(No spin)"), (4, "側上旋(Side top)"), (5, "側下旋(Side back)")]

/-- Scenario configuration record, mirroring the entries of the SCENARIOS
dict (src/app.py lines 54-85). The player_csv key is present only for the
two serve scenarios, hence an Option. -/
structure ScenarioConfig where
  name : String
  csv : String
  serve_only : Bool
  use_spin : Bool
  player : Bool
  player_csv : Option String := none
deriving DecidableEq, Repr

/-- Scenario S1 (src/app.py lines 55-61). -/
def S1_cfg : ScenarioConfig :=
  { name := "終局策略（後四拍・含旋轉）", csv := "data/last4_action_spin.csv",
    serve_only := false, use_spin := true, player := false }

/-- Scenario S2 (src/app.py lines 62-68). -/
def S2_cfg : ScenarioConfig :=
  { name := "終局策略（後四拍・不含旋轉）", csv := "data/last4_action.csv",
    serve_only := false, use_spin := false, player := false }

/-- Scenario S3 (src/app.py lines 69-76). -/
def S3_cfg : ScenarioConfig :=
  { name := "發球策略（前三拍・含旋轉）", csv := "data/serve3_action_spin.csv",
    serve_only := true, use_spin := true, player := true,
    player_csv := some "data/strategy_player_share_A1C_spin.csv" }

/-- Scenario S4 (src/app.py lines 77-84). -/
def S4_cfg : ScenarioConfig :=
  { name := "發球策略（前三拍・不含旋轉）", csv := "data/serve3_action.csv",
    serve_only := true, use_spin := false, player := true,
    player_csv := some "data/strategy_player_share_A1C.csv" }

/-- Embedding of the SCENARIOS registry (src/app.py lines 54-85). -/
def SCENARIOS : List (String × ScenarioConfig) :=
  [("S1", S1_cfg), ("S2", S2_cfg), ("S3", S3_cfg), ("S4", S4_cfg)]

/-- One row of a strategy table (columns listed in the spec and used by
src/app.py): first-action code, first-spin code, follow-up action code,
follow-up spin code, EV, usage_rate, count. In scenarios that do not
track spin the spin columns are absent from the CSV and never read; the
fields are carried but unused there. -/
structure StrategyRow where
  A1_actionId : Int
  A1_spinId : Int
  C_actionId : Int
  C_spinId : Int
  EV : ℚ
  usage_rate : ℚ
  count : Nat
deriving DecidableEq, Repr

/-- Embedding of make_c_label (src/app.py lines 95-99): with use_spin the
label is the action label, a separator, and the spin label; otherwise the
plain action label. A failed dict lookup (KeyError in Python) is none. -/
def make_c_label (use_spin : Bool) (row : StrategyRow) : Option String :=
  if use_spin then
    match action_label.lookup row.C_actionId, spin_label.lookup row.C_spinId with
    | some a, some s => some (a ++ " + " ++ s)
    | _, _ => none
  else
    action_label.lookup row.C_actionId

/-- Embedding of A_action_options (src/app.py line 139): the serve set
when the scenario is serve_only, else the non-serve set. -/
def A_action_options (cfg : ScenarioConfig) : List Int :=
  if cfg.serve_only then SERVE_ACTIONS else NON_SERVE_ACTIONS

/-- Embedding of the spin selectbox choice list (src/app.py line 149):
sorted(df[df.A1_actionId==A_action]["A1_spinId"].unique()). The pandas
unique call keeps first occurrences; sorted sorts ascending. -/
def A_spin_options (df : List StrategyRow) (A_action : Int) : List Int :=
  List.insertionSort (fun a b => a ≤ b)
    (((df.filter (fun r => r.A1_actionId == A_action)).map (fun r => r.A1_spinId)).dedup)

/-- Embedding of the df_sel filter (src/app.py lines 158-161). A_spin is
the selectbox value when the scenario tracks spin and None otherwise
(src/app.py lines 146-153), hence an Option. -/
def df_sel (cfg : ScenarioConfig) (df : List StrategyRow) (A_action : Int)
    (A_spin : Option Int) : List StrategyRow :=
  if cfg.use_spin then
    df.filter (fun r => r.A1_actionId == A_action && some r.A1_spinId == A_spin)
  else
    df.filter (fun r => r.A1_actionId == A_action)

/-- Strategy row together with its C_label column (src/app.py lines
167-169). -/
structure LabeledRow where
  row : StrategyRow
  C_label : Option String
deriving DecidableEq, Repr

/-- Embedding of the C_label column assignment by df_sel.apply
(src/app.py lines 167-169). -/
def add_C_label (use_spin : Bool) (rows : List StrategyRow) : List LabeledRow :=
  rows.map (fun r => { row := r, C_label := make_c_label use_spin r })

/-- Comparison used by sort_values("EV", ...): ascending order on the
EV column. -/
def evLE (a b : LabeledRow) : Prop := a.row.EV ≤ b.row.EV

instance : DecidableRel evLE :=
  fun a b => inferInstanceAs (Decidable (a.row.EV ≤ b.row.EV))

instance : IsTotal LabeledRow evLE := ⟨fun a b => le_total a.row.EV b.row.EV⟩

instance : IsTrans LabeledRow evLE := ⟨fun _ _ _ h1 h2 => le_trans h1 h2⟩

/-- Embedding of df.sort_values("EV", ascending=False) (src/app.py lines
102 and 191). For a descending sort pandas computes an ascending argsort
of the column and then reverses the resulting index order, so rows with
equal EV come out in reversed input order; numpy applies a stable
insertion sort to arrays of the sizes that occur here, which the
ascending insertion sort below mirrors. -/
def sort_values_EV_desc (l : List LabeledRow) : List LabeledRow :=
  (List.insertionSort evLE l).reverse

/-- Rounding to n decimal places, the semantics of the pandas round(n)
calls on the percentage columns. -/
def roundDec (n : Nat) (q : ℚ) : ℚ := ((round (q * 10 ^ n) : ℤ) : ℚ) / 10 ^ n

/-- One display row of the ranked top-K table, with the renamed columns
EV to Expected Value, usage_rate to Usage Rate (%), count to Count. -/
structure RankedRow where
  C_label : Option String
  expected_value : ℚ
  usage_rate_pct : ℚ
  count : Nat
deriving DecidableEq, Repr

/-- Modelled from the spec: the top-K ranking table of section 4.5 (sort
descending by EV, take the first K rows, rescale usage_rate to a
percentage rounded to 2 decimals, rename the display columns). The
repository holds two near-duplicate program variants and only one is
under src/; src/app.py itself renders no top-K strategy table, so this
definition follows the spec wording. -/
def ranked_table (rows : List LabeledRow) (K : Nat) : List RankedRow :=
  ((sort_values_EV_desc rows).take K).map
    (fun r => { C_label := r.C_label, expected_value := r.row.EV,
                usage_rate_pct := roundDec 2 (r.row.usage_rate * 100),
                count := r.row.count })

/-- One row of a player-share table (columns used by src/app.py lines
207-248 and listed in the spec). -/
structure PlayerShareRow where
  A1_playerId : Int
  A1_actionId : Int
  A1_spinId : Int
  C_actionId : Int
  C_spinId : Int
  use_count : Nat
  usage_share : ℚ
  win_rate : ℚ
deriving DecidableEq, Repr

/-- Player-share row after the merge with the player-id mapping: the
player_name column is none when no mapping row matched (pandas left join
leaves NaN there). -/
structure MergedPlayerRow where
  base : PlayerShareRow
  player_name : Option String
deriving DecidableEq, Repr

/-- Embedding of pdf.merge(player_map_df, left_on="A1_playerId",
right_on="player_id", how="left") (src/app.py lines 208-212): every
left row is kept; each matching mapping row contributes one output row;
a left row with no match is kept once with a missing name. -/
def merge_player_map (pdf : List PlayerShareRow) (player_map : List (Int × String)) :
    List MergedPlayerRow :=
  pdf.flatMap (fun r =>
    let hits := player_map.filter (fun m => m.1 == r.A1_playerId)
    if hits.isEmpty then [{ base := r, player_name := none }]
    else hits.map (fun m => { base := r, player_name := some m.2 }))

/-- Embedding of the player-share filter (src/app.py lines 214-225):
with use_spin it matches first action, first spin, follow-up action and
follow-up spin of the selected row c_row; without spin only the two
action columns. -/
def pdf_filter (use_spin : Bool) (pdf : List MergedPlayerRow) (A_action : Int)
    (A_spin : Option Int) (c_row : StrategyRow) : List MergedPlayerRow :=
  if use_spin then
    pdf.filter (fun r => r.base.A1_actionId == A_action
      && some r.base.A1_spinId == A_spin
      && r.base.C_actionId == c_row.C_actionId
      && r.base.C_spinId == c_row.C_spinId)
  else
    pdf.filter (fun r => r.base.A1_actionId == A_action
      && r.base.C_actionId == c_row.C_actionId)

/-- Comparison used by sort_values("usage_share", ...): ascending order
on the usage_share column. -/
def usageLE (a b : MergedPlayerRow) : Prop := a.base.usage_share ≤ b.base.usage_share

instance : DecidableRel usageLE :=
  fun a b => inferInstanceAs (Decidable (a.base.usage_share ≤ b.base.usage_share))

instance : IsTotal MergedPlayerRow usageLE :=
  ⟨fun a b => le_total a.base.usage_share b.base.usage_share⟩

instance : IsTrans MergedPlayerRow usageLE := ⟨fun _ _ _ h1 h2 => le_trans h1 h2⟩

/-- Embedding of pdf.sort_values("usage_share", ascending=False)
(src/app.py line 231), with the same ascending-then-reverse shape as
sort_values_EV_desc. -/
def sort_values_usage_desc (l : List MergedPlayerRow) : List MergedPlayerRow :=
  (List.insertionSort usageLE l).reverse

/-- One display row of the player table with the renamed columns of
src/app.py lines 239-245. -/
structure PlayerDisplayRow where
  player : Option String
  use_count : Nat
  usage_rate_pct : ℚ
  win_rate_pct : ℚ
deriving DecidableEq, Repr

/-- Display projection of one merged player row (src/app.py lines
235-245): usage_share and win_rate are rescaled to percentages rounded
to 2 and 1 decimals. -/
def player_display (r : MergedPlayerRow) : PlayerDisplayRow :=
  { player := r.player_name, use_count := r.base.use_count,
    usage_rate_pct := roundDec 2 (r.base.usage_share * 100),
    win_rate_pct := roundDec 1 (r.base.win_rate * 100) }

/-- Embedding of the top_players computation (src/app.py lines 230-245):
sort by usage_share descending, head(5), rescale and rename. -/
def top_players (pdf : List MergedPlayerRow) : List PlayerDisplayRow :=
  ((sort_values_usage_desc pdf).take 5).map player_display

/-- Outcome of the player-breakdown block (src/app.py lines 204-248):
an st.info message, an st.warning message, or the rendered table. -/
inductive PlayerSection where
  | info (msg : String)
  | warn (msg : String)
  | table (rows : List PlayerDisplayRow)
deriving DecidableEq, Repr

/-- Embedding of the player-breakdown block (src/app.py lines 204-248).
The pdf_raw argument is the table loaded from cfg player_csv; player_map
is the player-id mapping table. -/
def player_section (cfg : ScenarioConfig) (pdf_raw : List PlayerShareRow)
    (player_map : List (Int × String)) (A_action : Int) (A_spin : Option Int)
    (c_row : StrategyRow) : PlayerSection :=
  if cfg.player = false then PlayerSection.info "此視角未提供選手行為分析"
  else
    let pdf := merge_player_map pdf_raw player_map
    let pdf2 := pdf_filter cfg.use_spin pdf A_action A_spin c_row
    if pdf2.isEmpty then PlayerSection.warn "此策略在選手層級樣本不足"
    else PlayerSection.table (top_players pdf2)

/-- Observable output of one run of the script body: warning messages,
info messages, the chart data handed to st.pyplot (none when no chart is
drawn), and the player table handed to st.dataframe (none when omitted). -/
structure RenderOutput where
  warnings : List String
  infos : List String
  chart : Option (List LabeledRow)
  player_table : Option (List PlayerDisplayRow)
deriving DecidableEq, Repr

/-- Embedding of the script body from the df_sel filter to the end
(src/app.py lines 158-248). On an empty filtered subset the script emits
one warning and st.stop() aborts the run, so nothing later executes.
Otherwise the C_label column is added, the chart plots the EV-sorted
rows, c_idx selects a row of df_sorted (the selectbox offers exactly the
indices of df_sorted, so the out-of-range branch is unreachable in the
UI), and the player block contributes its message or table. -/
def render (cfg : ScenarioConfig) (df : List StrategyRow)
    (pdf_raw : List PlayerShareRow) (player_map : List (Int × String))
    (A_action : Int) (A_spin : Option Int) (c_idx : Nat) : RenderOutput :=
  let sel := df_sel cfg df A_action A_spin
  if sel.isEmpty then
    { warnings := ["此條件下沒有資料"], infos := [], chart := none, player_table := none }
  else
    let labeled := add_C_label cfg.use_spin sel
    let df_sorted := sort_values_EV_desc labeled
    match df_sorted[c_idx]? with
    | none =>
        { warnings := [], infos := [], chart := some df_sorted, player_table := none }
    | some c_row =>
        match player_section cfg pdf_raw player_map A_action A_spin c_row.row with
        | PlayerSection.info m =>
            { warnings := [], infos := [m], chart := some df_sorted, player_table := none }
        | PlayerSection.warn m =>
            { warnings := [m], infos := [], chart := some df_sorted, player_table := none }
        | PlayerSection.table t =>
            { warnings := [], infos := [], chart := some df_sorted, player_table := some t }

/-
Concrete inputs used by witness and counterexample theorems below.
-/

/-- Sample follow-up row with C_actionId 13 (block) and C_spinId 2
(backspin), the combination named by the spec. -/
def exRow : StrategyRow :=
  { A1_actionId := 1, A1_spinId := 1, C_actionId := 13, C_spinId := 2,
    EV := 1, usage_rate := 1, count := 3 }

/-- Labeled row with EV 1, used to exhibit an EV tie. -/
def tieA : LabeledRow :=
  { row := { A1_actionId := 15, A1_spinId := 0, C_actionId := 1, C_spinId := 0,
             EV := 1, usage_rate := 1, count := 1 },
    C_label := some "拉球(Drive)" }

/-- Second labeled row with the same EV 1 but a different follow-up
action, distinct from tieA. -/
def tieB : LabeledRow :=
  { row := { A1_actionId := 15, A1_spinId := 0, C_actionId := 2, C_spinId := 0,
             EV := 1, usage_rate := 1, count := 1 },
    C_label := some "反拉(Counter)" }

/-- Labeled row used to instantiate the ranked-table theorem. -/
def rkA : LabeledRow :=
  { row := { A1_actionId := 15, A1_spinId := 0, C_actionId := 3, C_spinId := 0,
             EV := 1, usage_rate := 1, count := 2 },
    C_label := some "殺球(Smash)" }

/-- Display row that the ranked table produces from rkA. -/
def rkDisplay : RankedRow :=
  { C_label := some "殺球(Smash)", expected_value := 1,
    usage_rate_pct := roundDec 2 ((1 : ℚ) * 100), count := 2 }

/-- Sample player-share row for the breakdown theorems. -/
def exShare : PlayerShareRow :=
  { A1_playerId := 7, A1_actionId := 15, A1_spinId := 0, C_actionId := 3,
    C_spinId := 0, use_count := 4, usage_share := 1, win_rate := 1 }

/-- Follow-up row selected for the breakdown witness. -/
def exC_row : StrategyRow :=
  { A1_actionId := 15, A1_spinId := 0, C_actionId := 3, C_spinId := 0,
    EV := 1, usage_rate := 1, count := 4 }

/-
Helper lemmas shared by several claim theorems.
-/

/-- Lookup in an association list succeeds exactly on its key set. -/
theorem lookup_label_isSome_iff (d : List (Int × String)) (k : Int) :
    (d.lookup k).isSome ↔ k ∈ d.map Prod.fst := by
  induction d with
  | nil => simp [List.lookup]
  | cons p t ih =>
    obtain ⟨k1, v⟩ := p
    rcases eq_or_ne k k1 with h | h
    · subst h; simp [List.lookup_cons]
    · have hb : (k == k1) = false := beq_eq_false_iff_ne.mpr h
      simp [List.lookup_cons, hb, ih, h]

/-- The action-label dict is defined exactly on codes 0 to 18. -/
theorem action_label_isSome (k : Int) :
    (action_label.lookup k).isSome ↔ 0 ≤ k ∧ k ≤ 18 := by
  rw [lookup_label_isSome_iff]
  simp [action_label]
  omega

/-- The spin-label dict is defined exactly on codes 0 to 5. -/
theorem spin_label_isSome (k : Int) :
    (spin_label.lookup k).isSome ↔ 0 ≤ k ∧ k ≤ 5 := by
  rw [lookup_label_isSome_iff]
  simp [spin_label]
  omega

/-- C10: make_c_label is total exactly on the label domains: it returns a
label when the follow-up action code is in 0..18 and, when spin is
tracked, the follow-up spin code is in 0..5; for any code outside these
domains the dict lookup fails (a KeyError in Python, none here) since
the code guards nothing. -/
theorem C10_make_c_label_domain (use_spin : Bool) (r : StrategyRow) :
    (make_c_label use_spin r).isSome ↔
      ((0 ≤ r.C_actionId ∧ r.C_actionId ≤ 18) ∧
        (use_spin = true → 0 ≤ r.C_spinId ∧ r.C_spinId ≤ 5)) := by
  have ha := action_label_isSome r.C_actionId
  have hb := spin_label_isSome r.C_spinId
  cases use_spin with
  | false => simpa [make_c_label] using ha
  | true =>
    have key : (make_c_label true r).isSome =
        ((action_label.lookup r.C_actionId).isSome
          && (spin_label.lookup r.C_spinId).isSome) := by
      cases hA : action_label.lookup r.C_actionId <;>
        cases hB : spin_label.lookup r.C_spinId <;>
        simp [make_c_label, hA, hB]
    rw [key]
    simp only [Bool.and_eq_true, ha, hb]
    simp

/-- C2: for every scenario configuration the offered first-action choice
set is exactly the serve set 15..18 when serve_only holds and exactly
the non-serve set 0..14 otherwise; no other code is offered. -/
theorem C2_first_action_choices (cfg : ScenarioConfig) (a : Int) :
    a ∈ A_action_options cfg ↔
      (if cfg.serve_only then a = 15 ∨ a = 16 ∨ a = 17 ∨ a = 18
       else 0 ≤ a ∧ a ≤ 14) := by
  cases h : cfg.serve_only with
  | true => simp [A_action_options, h, SERVE_ACTIONS]
  | false =>
    have hmem : a ∈ NON_SERVE_ACTIONS ↔ 0 ≤ a ∧ a ≤ 14 := by
      unfold NON_SERVE_ACTIONS
      constructor
      · intro hm
        obtain ⟨n, hn, rfl⟩ := List.mem_map.mp hm
        have hlt := List.mem_range.mp hn
        omega
      · intro hm
        exact List.mem_map.mpr ⟨a.toNat, List.mem_range.mpr (by omega), by omega⟩
    simp [A_action_options, h, hmem]

/-- C3: for a spin-tracking scenario the offered spin choice set for a
given first action is exactly the set of distinct A1_spinId values among
source rows with that first action. -/
theorem C3_spin_choices (df : List StrategyRow) (A_action x : Int) :
    x ∈ A_spin_options df A_action ↔
      ∃ r ∈ df, r.A1_actionId = A_action ∧ r.A1_spinId = x := by
  unfold A_spin_options
  rw [(List.perm_insertionSort _ _).mem_iff, List.mem_dedup]
  simp only [List.mem_map, List.mem_filter, beq_iff_eq]
  tauto

/-- C4: the df_sel filter retains exactly the rows whose first-action
code equals the selection (and whose first-spin code equals the selected
spin when the scenario tracks spin), keeps them in table order, and is
idempotent. -/
theorem C4_df_sel_exact_idempotent (cfg : ScenarioConfig) (df : List StrategyRow)
    (A_action : Int) (A_spin : Option Int) :
    (df_sel cfg df A_action A_spin).Sublist df ∧
    (∀ r, r ∈ df_sel cfg df A_action A_spin ↔
        r ∈ df ∧ r.A1_actionId = A_action ∧
          (cfg.use_spin = true → some r.A1_spinId = A_spin)) ∧
    df_sel cfg (df_sel cfg df A_action A_spin) A_action A_spin =
      df_sel cfg df A_action A_spin := by
  unfold df_sel
  cases h : cfg.use_spin with
  | false =>
    rw [if_neg Bool.false_ne_true, if_neg Bool.false_ne_true]
    refine ⟨List.filter_sublist _, ?_, ?_⟩
    · intro r
      simp [List.mem_filter]
    · rw [List.filter_filter]
      simp
  | true =>
    rw [if_pos rfl, if_pos rfl]
    refine ⟨List.filter_sublist _, ?_, ?_⟩
    · intro r
      simp [List.mem_filter, and_assoc]
    · rw [List.filter_filter]
      simp

/-- The descending EV sort yields a non-increasing EV column. -/
theorem sort_EV_desc_pairwise (l : List LabeledRow) :
    List.Pairwise (fun a b => b.row.EV ≤ a.row.EV) (sort_values_EV_desc l) := by
  unfold sort_values_EV_desc
  rw [List.pairwise_reverse]
  exact List.sorted_insertionSort evLE l

/-- The descending EV sort is a permutation of its input. -/
theorem sort_EV_desc_perm (l : List LabeledRow) : (sort_values_EV_desc l).Perm l :=
  (List.reverse_perm _).trans (List.perm_insertionSort _ _)

/-- The descending usage_share sort yields a non-increasing column. -/
theorem sort_usage_desc_pairwise (l : List MergedPlayerRow) :
    List.Pairwise (fun a b => b.base.usage_share ≤ a.base.usage_share)
      (sort_values_usage_desc l) := by
  unfold sort_values_usage_desc
  rw [List.pairwise_reverse]
  exact List.sorted_insertionSort usageLE l

/-- The descending usage_share sort is a permutation of its input. -/
theorem sort_usage_desc_perm (l : List MergedPlayerRow) :
    (sort_values_usage_desc l).Perm l :=
  (List.reverse_perm _).trans (List.perm_insertionSort _ _)

/-- C7 (amended): the chart and drill-down ordering sorts the rows
descending by EV and is a permutation of the input (deterministic), but
it is not stable: rows with equal EV do not keep their input order,
because pandas implements the descending sort as an ascending argsort
followed by a reversal of the index order. -/
theorem C7_sort_desc_deterministic (l : List LabeledRow) :
    List.Pairwise (fun a b => b.row.EV ≤ a.row.EV) (sort_values_EV_desc l) ∧
    (sort_values_EV_desc l).Perm l :=
  ⟨sort_EV_desc_pairwise l, sort_EV_desc_perm l⟩

/-- C7 counterexample: two distinct rows with equal EV come out of the
descending sort in the reverse of their input order, refuting the claim
that rows with equal EV keep the relative order of the input table. -/
theorem C7_stability_counterexample :
    tieA.row.EV = tieB.row.EV ∧ tieA ≠ tieB ∧
    sort_values_EV_desc [tieA, tieB] = [tieB, tieA] ∧
    sort_values_EV_desc [tieA, tieB] ≠ [tieA, tieB] := by
  refine ⟨rfl, by decide, rfl, by decide⟩

/-- C1: for any input rows and any K the ranked table has a
non-increasing Expected Value column, holds at most K rows, and each of
its rows displays the composite label, the EV, the usage rate rescaled
to a percentage rounded to 2 decimals, and the count of one source row. -/
theorem C1_ranked_table_spec (rows : List LabeledRow) (K : Nat) :
    List.Pairwise (fun a b => b.expected_value ≤ a.expected_value)
      (ranked_table rows K) ∧
    (ranked_table rows K).length ≤ K ∧
    ∀ t ∈ ranked_table rows K, ∃ r ∈ rows,
      t.C_label = r.C_label ∧ t.expected_value = r.row.EV ∧
      t.usage_rate_pct = roundDec 2 (r.row.usage_rate * 100) ∧
      t.count = r.row.count := by
  refine ⟨?_, ?_, ?_⟩
  · unfold ranked_table
    rw [List.pairwise_map]
    exact List.Pairwise.sublist (List.take_sublist K _) (sort_EV_desc_pairwise rows)
  · unfold ranked_table
    rw [List.length_map]
    exact List.length_take_le K _
  · intro t ht
    unfold ranked_table at ht
    rw [List.mem_map] at ht
    obtain ⟨r, hr, rfl⟩ := ht
    have hr2 : r ∈ sort_values_EV_desc rows := (List.take_sublist K _).subset hr
    have hr3 : r ∈ rows := (sort_EV_desc_perm rows).mem_iff.mp hr2
    exact ⟨r, hr3, rfl, rfl, rfl, rfl⟩

/-- Witness for C1 at a concrete one-row table with K = 1. -/
theorem C1_witness :
    ∃ r ∈ [rkA], rkDisplay.C_label = r.C_label ∧
      rkDisplay.expected_value = r.row.EV ∧
      rkDisplay.usage_rate_pct = roundDec 2 (r.row.usage_rate * 100) ∧
      rkDisplay.count = r.row.count :=
  (C1_ranked_table_spec [rkA] 1).2.2 rkDisplay
    (by rw [show ranked_table [rkA] 1 = [rkDisplay] from rfl]
        exact List.mem_singleton_self _)

/-- C5: whenever the filtered strategy subset is empty, the run emits
exactly one warning, the no-data notice, and produces no chart, no
player table and no info message: st.stop() ends the request. -/
theorem C5_empty_selection_halts (cfg : ScenarioConfig) (df : List StrategyRow)
    (pdf_raw : List PlayerShareRow) (player_map : List (Int × String))
    (A_action : Int) (A_spin : Option Int) (c_idx : Nat)
    (h : df_sel cfg df A_action A_spin = []) :
    render cfg df pdf_raw player_map A_action A_spin c_idx =
      { warnings := ["此條件下沒有資料"], infos := [], chart := none,
        player_table := none } := by
  simp [render, h]

/-- Witness for C5: an empty table gives an empty filtered subset. -/
theorem C5_witness :
    render S1_cfg [] [] [] 1 (some 1) 0 =
      { warnings := ["此條件下沒有資料"], infos := [], chart := none,
        player_table := none } :=
  C5_empty_selection_halts S1_cfg [] [] [] 1 (some 1) 0 rfl

/-- C6: with spin tracked the composite label is the follow-up action
label, a separator, and the follow-up spin label; without spin it is the
plain action label; in particular C_actionId 13 with C_spinId 2 renders
as the block-plus-backspin string. -/
theorem C6_composite_label (r : StrategyRow) (a s : String) :
    (action_label.lookup r.C_actionId = some a →
      spin_label.lookup r.C_spinId = some s →
      make_c_label true r = some (a ++ " + " ++ s)) ∧
    make_c_label false r = action_label.lookup r.C_actionId ∧
    (r.C_actionId = 13 → r.C_spinId = 2 →
      make_c_label true r = some "擋球(Block) + 下旋(Back)") := by
  refine ⟨?_, rfl, ?_⟩
  · intro h1 h2
    simp [make_c_label, h1, h2]
  · intro h1 h2
    simp only [make_c_label, h1, h2]
    decide

/-- Witness for C6 at the concrete row with C_actionId 13, C_spinId 2,
and the no-spin rendering of the same row. -/
theorem C6_witness :
    make_c_label true exRow = some "擋球(Block) + 下旋(Back)" ∧
    make_c_label false exRow = some "擋球(Block)" :=
  ⟨(C6_composite_label exRow "擋球(Block)" "下旋(Back)").2.2 rfl rfl,
   ((C6_composite_label exRow "擋球(Block)" "下旋(Back)").2.1).trans (by decide)⟩

/-- C8: the player breakdown left-joins names by player id without
dropping rows (an unmatched id keeps its row with a missing name),
filters on the active first action (and spin when tracked) and the
selected follow-up action (and spin when tracked), sorts the remainder
descending by usage_share, returns at most 5 rows, and rescales
usage_share and win_rate to percentages rounded to 2 and 1 decimals. -/
theorem C8_player_breakdown (pdf : List PlayerShareRow)
    (player_map : List (Int × String)) (use_spin : Bool) (A_action : Int)
    (A_spin : Option Int) (c_row : StrategyRow) :
    (∀ p ∈ pdf, ∃ m ∈ merge_player_map pdf player_map, m.base = p) ∧
    (∀ p ∈ pdf, (∀ q ∈ player_map, q.1 ≠ p.A1_playerId) →
      ({ base := p, player_name := none } : MergedPlayerRow) ∈
        merge_player_map pdf player_map) ∧
    (∀ m, m ∈ pdf_filter use_spin (merge_player_map pdf player_map)
            A_action A_spin c_row ↔
        m ∈ merge_player_map pdf player_map ∧
        m.base.A1_actionId = A_action ∧ m.base.C_actionId = c_row.C_actionId ∧
        (use_spin = true →
          some m.base.A1_spinId = A_spin ∧ m.base.C_spinId = c_row.C_spinId)) ∧
    List.Pairwise (fun a b => b.base.usage_share ≤ a.base.usage_share)
      (sort_values_usage_desc (pdf_filter use_spin
        (merge_player_map pdf player_map) A_action A_spin c_row)) ∧
    (sort_values_usage_desc (pdf_filter use_spin
        (merge_player_map pdf player_map) A_action A_spin c_row)).Perm
      (pdf_filter use_spin (merge_player_map pdf player_map)
        A_action A_spin c_row) ∧
    (top_players (pdf_filter use_spin (merge_player_map pdf player_map)
        A_action A_spin c_row)).length ≤ 5 ∧
    (∀ d ∈ top_players (pdf_filter use_spin (merge_player_map pdf player_map)
        A_action A_spin c_row),
      ∃ m ∈ pdf_filter use_spin (merge_player_map pdf player_map)
        A_action A_spin c_row,
        d.player = m.player_name ∧ d.use_count = m.base.use_count ∧
        d.usage_rate_pct = roundDec 2 (m.base.usage_share * 100) ∧
        d.win_rate_pct = roundDec 1 (m.base.win_rate * 100)) := by
  refine ⟨?_, ?_, ?_, sort_usage_desc_pairwise _, sort_usage_desc_perm _, ?_, ?_⟩
  · intro p hp
    unfold merge_player_map
    rcases hh : player_map.filter (fun m => m.1 == p.A1_playerId) with _ | ⟨q, t⟩
    · refine ⟨{ base := p, player_name := none }, ?_, rfl⟩
      rw [List.mem_flatMap]
      exact ⟨p, hp, by simp [hh]⟩
    · refine ⟨{ base := p, player_name := some q.2 }, ?_, rfl⟩
      rw [List.mem_flatMap]
      refine ⟨p, hp, ?_⟩
      simp only [hh, List.isEmpty_cons, Bool.false_eq_true, if_false]
      exact List.mem_map.mpr ⟨q, List.mem_cons_self q t, rfl⟩
  · intro p hp hq
    have hh : player_map.filter (fun m => m.1 == p.A1_playerId) = [] :=
      List.filter_eq_nil_iff.mpr (fun q hmem => by simpa using hq q hmem)
    unfold merge_player_map
    rw [List.mem_flatMap]
    exact ⟨p, hp, by simp [hh]⟩
  · intro m
    unfold pdf_filter
    cases use_spin with
    | false =>
      rw [if_neg Bool.false_ne_true]
      simp only [List.mem_filter, Bool.and_eq_true, beq_iff_eq,
        Bool.false_eq_true, false_implies, and_true]
    | true =>
      rw [if_pos rfl]
      simp only [List.mem_filter, Bool.and_eq_true, beq_iff_eq, true_implies]
      tauto
  · unfold top_players
    rw [List.length_map]
    exact List.length_take_le 5 _
  · intro d hd
    unfold top_players at hd
    rw [List.mem_map] at hd
    obtain ⟨m, hm, rfl⟩ := hd
    have hm2 := (List.take_sublist 5 _).subset hm
    have hm3 := (sort_usage_desc_perm _).mem_iff.mp hm2
    exact ⟨m, hm3, rfl, rfl, rfl, rfl⟩

/-- Witness for C8 at a one-row player table whose id is present in the
mapping: the join keeps the row and the display table shows its rescaled
percentages. -/
theorem C8_witness :
    (∃ m ∈ merge_player_map [exShare] [(7, "小明")], m.base = exShare) ∧
    (∃ m ∈ pdf_filter false (merge_player_map [exShare] [(7, "小明")])
        15 none exC_row,
      ({ player := some "小明", use_count := 4,
         usage_rate_pct := roundDec 2 ((1 : ℚ) * 100),
         win_rate_pct := roundDec 1 ((1 : ℚ) * 100) } : PlayerDisplayRow).player
           = m.player_name ∧
      ({ player := some "小明", use_count := 4,
         usage_rate_pct := roundDec 2 ((1 : ℚ) * 100),
         win_rate_pct := roundDec 1 ((1 : ℚ) * 100) } : PlayerDisplayRow).use_count
           = m.base.use_count ∧
      ({ player := some "小明", use_count := 4,
         usage_rate_pct := roundDec 2 ((1 : ℚ) * 100),
         win_rate_pct := roundDec 1 ((1 : ℚ) * 100) } : PlayerDisplayRow).usage_rate_pct
           = roundDec 2 (m.base.usage_share * 100) ∧
      ({ player := some "小明", use_count := 4,
         usage_rate_pct := roundDec 2 ((1 : ℚ) * 100),
         win_rate_pct := roundDec 1 ((1 : ℚ) * 100) } : PlayerDisplayRow).win_rate_pct
           = roundDec 1 (m.base.win_rate * 100)) :=
  ⟨(C8_player_breakdown [exShare] [(7, "小明")] false 15 none exC_row).1
      exShare (List.mem_singleton_self _),
   (C8_player_breakdown [exShare] [(7, "小明")] false 15 none exC_row).2.2.2.2.2.2
      { player := some "小明", use_count := 4,
        usage_rate_pct := roundDec 2 ((1 : ℚ) * 100),
        win_rate_pct := roundDec 1 ((1 : ℚ) * 100) }
      (by rw [show top_players (pdf_filter false
            (merge_player_map [exShare] [(7, "小明")]) 15 none exC_row) =
          [{ player := some "小明", use_count := 4,
             usage_rate_pct := roundDec 2 ((1 : ℚ) * 100),
             win_rate_pct := roundDec 1 ((1 : ℚ) * 100) }] from rfl]
          exact List.mem_singleton_self _)⟩

/-- C9: when the scenario config has no player data the breakdown block
yields an informational message; when it has player data but the
filtered player subset is empty it yields a warning and no table; and
every input lands in one of the three message or table outcomes, so no
data-absence case escapes as an exception. -/
theorem C9_breakdown_messages (cfg : ScenarioConfig) (pdf_raw : List PlayerShareRow)
    (player_map : List (Int × String)) (A_action : Int) (A_spin : Option Int)
    (c_row : StrategyRow) :
    (cfg.player = false →
      player_section cfg pdf_raw player_map A_action A_spin c_row =
        PlayerSection.info "此視角未提供選手行為分析") ∧
    (cfg.player = true →
      pdf_filter cfg.use_spin (merge_player_map pdf_raw player_map)
          A_action A_spin c_row = [] →
      player_section cfg pdf_raw player_map A_action A_spin c_row =
        PlayerSection.warn "此策略在選手層級樣本不足") ∧
    ((∃ m, player_section cfg pdf_raw player_map A_action A_spin c_row =
        PlayerSection.info m) ∨
     (∃ m, player_section cfg pdf_raw player_map A_action A_spin c_row =
        PlayerSection.warn m) ∨
     (∃ t, player_section cfg pdf_raw player_map A_action A_spin c_row =
        PlayerSection.table t)) := by
  refine ⟨?_, ?_, ?_⟩
  · intro h
    simp [player_section, h]
  · intro h hf
    simp [player_section, h, hf]
  · by_cases hcp : cfg.player = false
    · exact Or.inl ⟨"此視角未提供選手行為分析", by simp [player_section, hcp]⟩
    · by_cases hfe : pdf_filter cfg.use_spin (merge_player_map pdf_raw player_map)
          A_action A_spin c_row = []
      · exact Or.inr (Or.inl ⟨"此策略在選手層級樣本不足",
          by simp [player_section, hcp, hfe]⟩)
      · refine Or.inr (Or.inr ⟨top_players (pdf_filter cfg.use_spin
          (merge_player_map pdf_raw player_map) A_action A_spin c_row), ?_⟩)
        simp [player_section, hcp, hfe]

/-- Witness for C9: scenario S2 has no player data and yields the info
message; scenario S3 with an empty player table yields the warning. -/
theorem C9_witness :
    player_section S2_cfg [] [] 1 none exRow =
      PlayerSection.info "此視角未提供選手行為分析" ∧
    player_section S3_cfg [] [] 15 (some 1) exRow =
      PlayerSection.warn "此策略在選手層級樣本不足" :=
  ⟨(C9_breakdown_messages S2_cfg [] [] 1 none exRow).1 rfl,
   (C9_breakdown_messages S3_cfg [] [] 15 (some 1) exRow).2.1 rfl rfl⟩
